import Mathlib

/-!
Verification development for the timeline rendering engine of
openqa-log-visualizer (`app/static/js/timelineRenderer.js`).

The JavaScript module is shallowly embedded: timestamps are modelled by the
rational value `new Date(s).getTime()` would produce (the caller feeds valid
ISO-8601 strings, so the parse result is an ordinary finite number of epoch
milliseconds), pixel coordinates are rationals, DOM nodes built by a render
call become a `Scene` of typed primitives, and the handlers' mutations of DOM
attributes become functions on `Scene`.  JavaScript `||` / truthiness on the
optional string fields is modelled explicitly.
-/

namespace TimelineViz

/-- An event record as consumed by the renderer.  `timestamp` models
`new Date(e.timestamp).getTime()`; `mutex` / `barrier` are the optional
pairing-name fields (`none` models an absent field). -/
structure Event where
  job_id : String
  timestamp : ℚ
  type : String
  log_index : Nat
  message : String
  mutex : Option String := none
  barrier : Option String := none
deriving DecidableEq, Repr

/-- An event pair supplied by the analyzer (`pair_type`, optional `mutex` /
`barrier` name, and the two endpoint events). -/
structure EventPair where
  pair_type : String
  mutex : Option String := none
  barrier : Option String := none
  start_event : Event
  end_event : Event
deriving DecidableEq, Repr

/-- JavaScript truthiness of an optional string field: an absent field
(`undefined`) and the empty string are falsy. -/
def jsTruthy : Option String → Bool
  | none => false
  | some s => !s.isEmpty

/-- JavaScript `a || b` on two optional string fields: `a` when truthy,
otherwise `b`. -/
def jsOr (a b : Option String) : Option String :=
  if jsTruthy a then a else b

/-- JavaScript string coercion as performed by `setAttribute`: `undefined`
stringifies to `"undefined"`. -/
def jsString : Option String → String
  | none => "undefined"
  | some s => s

/-- `getShortName` (lines 95–100): the job's `short_name` when the jobs table
has a truthy entry, else the job id itself. -/
def getShortName (jobs : List (String × String)) (jobId : String) : String :=
  match jobs.lookup jobId with
  | some s => if s.isEmpty then jobId else s
  | none => jobId

/-- `[...new Set(l)]`: deduplication keeping the first occurrence of each
element, accumulator = elements already emitted. -/
def jsSetDedupAux (seen : List String) : List String → List String
  | [] => []
  | x :: xs =>
      if x ∈ seen then jsSetDedupAux seen xs
      else x :: jsSetDedupAux (x :: seen) xs

/-- `[...new Set(l)]`. -/
def jsSetDedup (l : List String) : List String := jsSetDedupAux [] l

/-- Insert into a sorted list, using only the decidable `<` on strings. -/
def jsInsert (x : String) : List String → List String
  | [] => [x]
  | y :: ys => if y < x then y :: jsInsert x ys else x :: y :: ys

/-- `Array.prototype.sort()` with no comparator on an array of strings:
ascending lexicographic order (insertion sort model). -/
def jsSort : List String → List String
  | [] => []
  | x :: xs => jsInsert x (jsSort xs)

/-- Line 107: the lane set — the distinct short names of all events (the
full, unfiltered event list), sorted. -/
def participantsOf (jobs : List (String × String)) (allEvents : List Event) :
    List String :=
  jsSort (jsSetDedup (allEvents.map (fun e => getShortName jobs e.job_id)))

/-- `Array.prototype.indexOf`: index of the first occurrence, `-1` when the
element is absent. -/
def jsIndexOf : List String → String → Int
  | [], _ => -1
  | x :: xs, s =>
      if x = s then 0
      else
        let r := jsIndexOf xs s
        if r = -1 then -1 else r + 1

/-- Lines 134–138: linear time→pixel map over the current viewport; a
degenerate domain maps every timestamp to `width / 2`. -/
def xScale (startTime endTime width t : ℚ) : ℚ :=
  if endTime - startTime = 0 then width / 2
  else (t - startTime) / (endTime - startTime) * width

/-- Lines 141–143: y coordinate of a participant's lane,
`indexOf(participant) * 40 + 20`.  A participant outside the lane set gets
index `-1`, hence y = `-20`. -/
def yScale (participants : List String) (p : String) : ℚ :=
  (jsIndexOf participants p : ℚ) * 40 + 20

/-- JavaScript `isNaN` as applied to the pair guard of line 305.  Both tested
values are outputs of `yScale`, i.e. `indexOf * 40 + 20` — an ordinary finite
number for every input — so on every value this program tests the guard is
false; ℚ has no NaN. -/
def jsIsNaN (_ : ℚ) : Bool := false

/-- A participant label and its lifeline y coordinate (lines 146–165). -/
structure Lifeline where
  participant : String
  y : ℚ
deriving DecidableEq, Repr

/-- An event circle (lines 202–217) together with the `faded` class flag the
hover handlers toggle. -/
structure Marker where
  x : ℚ
  y : ℚ
  color : String
  event : Event
  faded : Bool := false
deriving DecidableEq, Repr

/-- A critical-section rectangle (lines 323–344).  The default opacity 0.15
comes from the stylesheet, as recorded by the mouseout handler's reset
(line 278, "Reset to default opacity"). -/
structure RectPrim where
  x : ℚ
  y : ℚ
  width : ℚ
  height : ℚ
  pairName : String
  opacity : ℚ := 15 / 100
deriving DecidableEq, Repr

/-- A synchronization arrow (lines 347–361), hidden at creation
(`display: none`). -/
structure ArrowPrim where
  x1 : ℚ
  y1 : ℚ
  x2 : ℚ
  y2 : ℚ
  color : String
  pairName : String
  visible : Bool := false
deriving DecidableEq, Repr

/-- The primitives one render call produces.  `warnings` records the indices
of event pairs skipped by the line 305 guard (the `console.warn` branch,
lines 363–367). -/
structure Scene where
  lifelines : List Lifeline
  markers : List Marker
  rects : List RectPrim
  arrows : List ArrowPrim
  warnings : List Nat
deriving DecidableEq, Repr

/-- Line 207: `(typeColorMap && typeColorMap[event.type]) || '#808080'`. -/
def markerColor (typeColorMap : List (String × String)) (ty : String) : String :=
  match typeColorMap.lookup ty with
  | some c => if c.isEmpty then "#808080" else c
  | none => "#808080"

/-- Lines 353–354: `typeColorMap[eventType] || '#333'`. -/
def arrowColor (typeColorMap : List (String × String)) (ty : String) : String :=
  match typeColorMap.lookup ty with
  | some c => if c.isEmpty then "#333" else c
  | none => "#333"

/-- Lines 296–368: the primitives one event pair contributes —
`(rectangles, arrows, warned?)`. -/
def renderPair (jobs : List (String × String)) (participants : List String)
    (typeColorMap : List (String × String)) (startTime endTime width : ℚ)
    (pair : EventPair) : List RectPrim × List ArrowPrim × Bool :=
  let x1 := xScale startTime endTime width pair.start_event.timestamp
  let y1 := yScale participants (getShortName jobs pair.start_event.job_id)
  let x2 := xScale startTime endTime width pair.end_event.timestamp
  let y2 := yScale participants (getShortName jobs pair.end_event.job_id)
  if !jsIsNaN y1 && !jsIsNaN y2 then
    if pair.pair_type = "mutex_lock_unlock" then
      let rect1 : RectPrim :=
        { x := x1, y := y1 - 10, width := x2 - x1, height := 20,
          pairName := jsString pair.mutex }
      if pair.start_event.job_id = pair.end_event.job_id then
        ([rect1], [], false)
      else
        let rect2 : RectPrim :=
          { x := x1, y := y2 - 10, width := x2 - x1, height := 20,
            pairName := jsString pair.mutex }
        ([rect1, rect2], [], false)
    else
      let eventType := if jsTruthy pair.mutex then "mutex" else "barrier"
      let arrow : ArrowPrim :=
        { x1 := x1, y1 := y1, x2 := x2, y2 := y2,
          color := arrowColor typeColorMap eventType,
          pairName := jsString (jsOr pair.mutex pair.barrier) }
      ([], [arrow], false)
  else
    ([], [], true)

/-- Lines 92–394 (`_renderTimeline`): one full render call.  `clientWidth`
models `container.clientWidth`; the chart width is
`clientWidth - margin.left - margin.right = clientWidth - 120 - 50`. -/
def _renderTimeline (allEvents : List Event) (jobs : List (String × String))
    (clientWidth : ℚ) (startTime endTime : ℚ)
    (typeColorMap : List (String × String)) (eventPairs : List EventPair) :
    Scene :=
  let events := allEvents.filter
    (fun e => decide (startTime ≤ e.timestamp) && decide (e.timestamp ≤ endTime))
  let participants := participantsOf jobs allEvents
  let width := clientWidth - 120 - 50
  let lifelines := participants.map
    (fun p => { participant := p, y := yScale participants p : Lifeline })
  let markers := events.map (fun e =>
    { x := xScale startTime endTime width e.timestamp,
      y := yScale participants (getShortName jobs e.job_id),
      color := markerColor typeColorMap e.type, event := e : Marker })
  let pairResults := eventPairs.map
    (renderPair jobs participants typeColorMap startTime endTime width)
  { lifelines := lifelines, markers := markers,
    rects := (pairResults.map (·.1)).flatten,
    arrows := (pairResults.map (·.2.1)).flatten,
    warnings := pairResults.enum.filterMap
      (fun ir => if ir.2.2.2 then some ir.1 else none) }

/-- Lines 219–259: the mouseover handler of an event marker — the scene state
it mutates.  `syncLegendPresent` models whether the `sync-legend` element
exists (line 254's null check); the second result component is the sync
legend's visibility after the handler. -/
def mouseoverMarker (syncLegendPresent : Bool) (scene : Scene)
    (legendShown : Bool) (hovered : Event) : Scene × Bool :=
  let pairName := jsOr hovered.mutex hovered.barrier
  if jsTruthy pairName then
    let markers := scene.markers.map (fun m =>
      if jsOr m.event.mutex m.event.barrier ≠ pairName then
        { m with faded := true }
      else m)
    let arrows := scene.arrows.map (fun a =>
      if a.pairName = jsString pairName then { a with visible := true } else a)
    let rects := scene.rects.map (fun r =>
      if r.pairName = jsString pairName then { r with opacity := 4 / 10 }
      else r)
    ({ scene with markers := markers, arrows := arrows, rects := rects },
      if syncLegendPresent then true else legendShown)
  else
    (scene, legendShown)

/-- Lines 265–285: the mouseout handler of an event marker — removes the
`faded` class from every marker, hides every arrow, resets every rectangle
to the default opacity 0.15, and hides the sync legend (when that element
exists). -/
def mouseoutMarker (syncLegendPresent : Bool) (scene : Scene)
    (legendShown : Bool) : Scene × Bool :=
  ({ scene with
      markers := scene.markers.map (fun m => { m with faded := false }),
      arrows := scene.arrows.map (fun a => { a with visible := false }),
      rects := scene.rects.map (fun r => { r with opacity := 15 / 100 }) },
    if syncLegendPresent then false else legendShown)

/-- The host page surface `initializeTimeline` works against: which of the
required elements exist, the container's `clientWidth`, and how many
interaction handlers are currently attached to the container / the reset
control. -/
structure Host where
  container : Bool
  resetButton : Bool
  timelineLegend : Bool
  syncLegend : Bool
  containerWidth : ℚ
  mousedownHandlers : Nat
  resetHandlers : Nat
deriving DecidableEq, Repr

/-- The outcome of `initializeTimeline`: success carries the host after
handler attachment, the full viewport bounds, and the initial render's scene;
a thrown `TypeError` carries the message and the host state at the moment of
the throw (handlers attached before the throw remain attached). -/
inductive InitResult where
  | ok (host : Host) (fullStartTime fullEndTime : ℚ) (scene : Scene)
  | errored (msg : String) (host : Host)
deriving DecidableEq, Repr

/-- `InitResult.isOk`. -/
def InitResult.isOk : InitResult → Bool
  | .ok _ _ _ _ => true
  | .errored _ _ => false

/-- Lines 405–509 (`initializeTimeline`), in source order: (1) element
lookups (null-safe); (2) line 409 dereferences `allEvents[0]` — an empty list
throws here, before anything is attached or rendered; (3) line 419 attaches
the reset-click handler — a missing reset control throws here; (4) line 507
attaches the mousedown handler — a missing container throws here; (5) line
508 performs the initial render, whose line 375 dereferences the
`timeline-legend` element without a null check. -/
def initializeTimeline (allEvents : List Event)
    (jobs : List (String × String)) (typeColorMap : List (String × String))
    (eventPairs : List EventPair) (host : Host) : InitResult :=
  match allEvents with
  | [] =>
      .errored "TypeError: allEvents[0] is undefined" host
  | e0 :: rest =>
      let fullStartTime := e0.timestamp
      let fullEndTime := ((e0 :: rest).getLastD e0).timestamp
      if !host.resetButton then
        .errored "TypeError: resetButton is null" host
      else
        let host1 := { host with resetHandlers := host.resetHandlers + 1 }
        if !host.container then
          .errored "TypeError: container is null" host1
        else
          let host2 :=
            { host1 with mousedownHandlers := host1.mousedownHandlers + 1 }
          if !host.timelineLegend then
            .errored "TypeError: legendContainer is null" host2
          else
            .ok host2 fullStartTime fullEndTime
              (_renderTimeline allEvents jobs host.containerWidth
                fullStartTime fullEndTime typeColorMap eventPairs)

/-- The zoom/viewport state owned by `initializeTimeline`'s closure:
`fullStartTime` / `fullEndTime` (lines 409–410), the current viewport
(lines 412–413), and the reset control's visibility. -/
structure ViewState where
  fullStartTime : ℚ
  fullEndTime : ℚ
  currentStartTime : ℚ
  currentEndTime : ℚ
  resetVisible : Bool
deriving DecidableEq, Repr

/-- Lines 415–417 (`renderCurrentView`). -/
def renderCurrentView (allEvents : List Event)
    (jobs : List (String × String)) (clientWidth : ℚ)
    (typeColorMap : List (String × String)) (eventPairs : List EventPair)
    (st : ViewState) : Scene :=
  _renderTimeline allEvents jobs clientWidth st.currentStartTime
    st.currentEndTime typeColorMap eventPairs

/-- Lines 419–424: the reset-zoom click handler — restore the full viewport
and hide the reset control (the re-render it triggers is
`renderCurrentView` of the resulting state). -/
def resetClick (st : ViewState) : ViewState :=
  { st with
    currentStartTime := st.fullStartTime,
    currentEndTime := st.fullEndTime, resetVisible := false }

/-- Lines 467–505 (`onMouseUp`), the committing part of the drag gesture:
`startX` / `endX` are the press and release pixel positions relative to the
svg, `svgWidth` models `svgRect.width`, `marginLeft` the parsed translate
offset.  Returns the new state and whether a re-render was triggered. -/
def onMouseUp (st : ViewState) (startX endX marginLeft svgWidth : ℚ) :
    ViewState × Bool :=
  if |endX - startX| < 10 then (st, false)
  else
    let marginRight : ℚ := 50
    let chartWidth := svgWidth - marginLeft - marginRight
    let timeDomain := st.currentEndTime - st.currentStartTime
    let startPos := max 0 (min startX endX - marginLeft)
    let endPos := min chartWidth (max startX endX - marginLeft)
    let newStartTime := st.currentStartTime + startPos / chartWidth * timeDomain
    let newEndTime := st.currentStartTime + endPos / chartWidth * timeDomain
    ({ st with
        currentStartTime := newStartTime,
        currentEndTime := newEndTime, resetVisible := true }, true)

/-! ### Concrete fixtures

Small concrete inputs, used to evaluate the definitions at specific points
(mirroring the shape of the repository's frontend unit-test fixture). -/

/-- A mutex-lock event of job `1`. -/
def exE1 : Event :=
  { job_id := "1", timestamp := 0, type := "mutex", log_index := 0,
    message := "lock m1", mutex := some "m1" }

/-- A mutex-unlock event of job `2`. -/
def exE2 : Event :=
  { job_id := "2", timestamp := 100, type := "mutex", log_index := 0,
    message := "unlock m1", mutex := some "m1" }

/-- Two events of two jobs. -/
def exEvents : List Event := [exE1, exE2]

/-- A jobs table giving the two jobs distinct short names. -/
def exJobs : List (String × String) := [("1", "worker-1"), ("2", "worker-2")]

/-- A color map with one entry. -/
def exColorMap : List (String × String) := [("mutex", "blue")]

/-- A jobs table mapping two distinct job ids to the same short name. -/
def cexJobs : List (String × String) := [("1", "w"), ("2", "w")]

/-- A cross-job `mutex_lock_unlock` pair between `exE1` and `exE2`. -/
def cexPair : EventPair :=
  { pair_type := "mutex_lock_unlock", mutex := some "m1",
    start_event := exE1, end_event := exE2 }

/-- An event whose job id appears in no event list used with it: its
participant has no lane. -/
def c8Ghost : Event :=
  { job_id := "GHOST", timestamp := 50, type := "mutex", log_index := 0,
    message := "lock m1", mutex := some "m1" }

/-- A `mutex_lock_unlock` pair whose start endpoint (`c8Ghost`) has no lane
in a render over `[exE1]` alone. -/
def c8Pair : EventPair :=
  { pair_type := "mutex_lock_unlock", mutex := some "m1",
    start_event := c8Ghost, end_event := exE1 }

/-- A host surface with every required element present and no handlers
attached yet. -/
def exHostFull : Host :=
  { container := true, resetButton := true, timelineLegend := true,
    syncLegend := true, containerWidth := 800, mousedownHandlers := 0,
    resetHandlers := 0 }

/-- `exHostFull` with the timeline container element absent. -/
def exHostNoContainer : Host := { exHostFull with container := false }

/-- A viewport state zoomed to the sub-range `[20, 80]` of full bounds
`[0, 100]`. -/
def exZoomState : ViewState :=
  { fullStartTime := 0, fullEndTime := 100, currentStartTime := 20,
    currentEndTime := 80, resetVisible := true }

/-- A viewport state at full bounds `[0, 100]` with the reset control
hidden. -/
def exDragState : ViewState :=
  { fullStartTime := 0, fullEndTime := 100, currentStartTime := 0,
    currentEndTime := 100, resetVisible := false }

/-- The host state an `InitResult` left behind. -/
def hostAfter : InitResult → Host
  | .ok h _ _ _ => h
  | .errored _ h => h

/-- A marker over an event carrying pairing key `m1` (initial render state:
not faded). -/
def hvM1 : Marker :=
  { x := 0, y := 20, color := "blue", event := exE1 }

/-- A marker over an event with no pairing key. -/
def hvM2 : Marker :=
  { x := 10, y := 60, color := "#808080",
    event := { job_id := "2", timestamp := 1, type := "log", log_index := 3,
               message := "plain" } }

/-- A rectangle tagged `m1` at the default opacity. -/
def hvR1 : RectPrim :=
  { x := 0, y := 10, width := 100, height := 20, pairName := "m1" }

/-- An arrow tagged `b9`, hidden. -/
def hvA1 : ArrowPrim :=
  { x1 := 0, y1 := 20, x2 := 5, y2 := 60, color := "green", pairName := "b9" }

/-- A small scene in the state a fresh render leaves it: no marker faded,
every arrow hidden, every rectangle at the default opacity. -/
def hvScene : Scene :=
  { lifelines := [], markers := [hvM1, hvM2], rects := [hvR1],
    arrows := [hvA1], warnings := [] }

/-! ### Helper lemmas about the sorting / deduplication model -/

theorem jsInsert_perm (x : String) (l : List String) :
    (jsInsert x l).Perm (x :: l) := by
  induction l with
  | nil => exact List.Perm.refl _
  | cons y ys ih =>
      by_cases h : y < x
      · simp only [jsInsert, if_pos h]
        exact (ih.cons y).trans (List.Perm.swap x y ys)
      · simp only [jsInsert, if_neg h]
        exact List.Perm.refl _

theorem jsSort_perm (l : List String) : (jsSort l).Perm l := by
  induction l with
  | nil => exact List.Perm.refl _
  | cons x xs ih => exact (jsInsert_perm x (jsSort xs)).trans (ih.cons x)

theorem mem_jsSetDedupAux (l : List String) :
    ∀ (seen : List String) (x : String),
      x ∈ jsSetDedupAux seen l ↔ x ∈ l ∧ x ∉ seen := by
  induction l with
  | nil => intro seen x; simp [jsSetDedupAux]
  | cons y ys ih =>
      intro seen x
      by_cases hy : y ∈ seen
      · rw [show jsSetDedupAux seen (y :: ys) = jsSetDedupAux seen ys from
          if_pos hy, ih]
        constructor
        · rintro ⟨hx, hs⟩
          exact ⟨List.mem_cons_of_mem y hx, hs⟩
        · rintro ⟨hx, hs⟩
          rcases List.mem_cons.mp hx with rfl | hx2
          · exact absurd hy hs
          · exact ⟨hx2, hs⟩
      · rw [show jsSetDedupAux seen (y :: ys)
            = y :: jsSetDedupAux (y :: seen) ys from if_neg hy,
          List.mem_cons, ih]
        constructor
        · rintro (rfl | ⟨hx, hs⟩)
          · exact ⟨List.mem_cons_self x ys, hy⟩
          · exact ⟨List.mem_cons_of_mem y hx,
              fun h => hs (List.mem_cons_of_mem y h)⟩
        · rintro ⟨hx, hs⟩
          rcases List.mem_cons.mp hx with rfl | hx2
          · exact Or.inl rfl
          · by_cases hxy : x = y
            · exact Or.inl hxy
            · refine Or.inr ⟨hx2, fun h => ?_⟩
              rcases List.mem_cons.mp h with h1 | h2
              · exact hxy h1
              · exact hs h2

theorem nodup_jsSetDedupAux (l : List String) :
    ∀ seen : List String, (jsSetDedupAux seen l).Nodup := by
  induction l with
  | nil => intro seen; simp [jsSetDedupAux]
  | cons y ys ih =>
      intro seen
      by_cases hy : y ∈ seen
      · rw [show jsSetDedupAux seen (y :: ys) = jsSetDedupAux seen ys from
          if_pos hy]
        exact ih seen
      · rw [show jsSetDedupAux seen (y :: ys)
            = y :: jsSetDedupAux (y :: seen) ys from if_neg hy]
        refine List.Nodup.cons ?_ (ih (y :: seen))
        intro hmem
        exact ((mem_jsSetDedupAux ys (y :: seen) y).mp hmem).2
          (List.mem_cons_self y seen)

theorem mem_jsSetDedup (l : List String) (x : String) :
    x ∈ jsSetDedup l ↔ x ∈ l := by
  simp [jsSetDedup, mem_jsSetDedupAux]

theorem nodup_jsSetDedup (l : List String) : (jsSetDedup l).Nodup :=
  nodup_jsSetDedupAux l []

theorem nodup_participantsOf (jobs : List (String × String))
    (allEvents : List Event) : (participantsOf jobs allEvents).Nodup :=
  ((jsSort_perm _).nodup_iff).mpr (nodup_jsSetDedup _)

theorem mem_participantsOf (jobs : List (String × String))
    (allEvents : List Event) (p : String) :
    p ∈ participantsOf jobs allEvents ↔
      ∃ e ∈ allEvents, getShortName jobs e.job_id = p := by
  simp [participantsOf, (jsSort_perm _).mem_iff, mem_jsSetDedup, List.mem_map]

/-! ### Claims -/

/-- C1: for every non-empty event list, a render over viewport
`[startTime, endTime]` produces exactly one lifeline per distinct
participant — the lifeline labels are duplicate-free and cover exactly the
short names derived from the full event list — and exactly one marker per
event whose timestamp `t` satisfies `startTime ≤ t ≤ endTime` (inclusive on
both ends): the markers' source events are precisely the filtered events. -/
theorem C1_lifelines_and_markers (allEvents : List Event)
    (jobs typeColorMap : List (String × String)) (clientWidth : ℚ)
    (eventPairs : List EventPair) (startTime endTime : ℚ)
    (hne : allEvents ≠ []) :
    ((_renderTimeline allEvents jobs clientWidth startTime endTime
        typeColorMap eventPairs).lifelines.map (fun l => l.participant)).Nodup
    ∧ (∀ p, p ∈ (_renderTimeline allEvents jobs clientWidth startTime endTime
        typeColorMap eventPairs).lifelines.map (fun l => l.participant) ↔
          ∃ e ∈ allEvents, getShortName jobs e.job_id = p)
    ∧ (_renderTimeline allEvents jobs clientWidth startTime endTime
        typeColorMap eventPairs).markers.map (fun m => m.event)
      = allEvents.filter (fun e =>
          decide (startTime ≤ e.timestamp) && decide (e.timestamp ≤ endTime)) := by
  have hlife : (_renderTimeline allEvents jobs clientWidth startTime endTime
      typeColorMap eventPairs).lifelines.map (fun l => l.participant)
      = participantsOf jobs allEvents := by
    simp only [_renderTimeline, List.map_map]
    have hcomp : ((fun l : Lifeline => l.participant) ∘ fun p =>
        ({ participant := p,
           y := yScale (participantsOf jobs allEvents) p } : Lifeline)) = id := by
      funext p; rfl
    rw [hcomp, List.map_id]
  refine ⟨?_, ?_, ?_⟩
  · rw [hlife]
    exact nodup_participantsOf jobs allEvents
  · intro p
    rw [hlife]
    exact mem_participantsOf jobs allEvents p
  · simp only [_renderTimeline, List.map_map]
    have hcomp : ((fun m : Marker => m.event) ∘ fun e : Event =>
        ({ x := xScale startTime endTime (clientWidth - 120 - 50) e.timestamp,
           y := yScale (participantsOf jobs allEvents)
                  (getShortName jobs e.job_id),
           color := markerColor typeColorMap e.type,
           event := e } : Marker)) = id := by
      funext e; rfl
    rw [hcomp, List.map_id]

/-- Witness for C1 at the concrete two-event fixture. -/
theorem C1_lifelines_and_markers_witness :
    (_renderTimeline exEvents exJobs 800 0 100 exColorMap []).markers.map
        (fun m => m.event)
      = exEvents.filter (fun e =>
          decide ((0 : ℚ) ≤ e.timestamp) && decide (e.timestamp ≤ (100 : ℚ))) :=
  (C1_lifelines_and_markers exEvents exJobs exColorMap 800 [] 0 100
    (by decide)).2.2

/-- C4: when the viewport is degenerate (`endTime = startTime`), `xScale`
maps every timestamp to `width / 2`, and rendering (a total function here)
places every marker at mid-width — no division by zero occurs. -/
theorem C4_degenerate_viewport (allEvents : List Event)
    (jobs typeColorMap : List (String × String)) (clientWidth : ℚ)
    (eventPairs : List EventPair) (startTime endTime width t : ℚ)
    (h : endTime = startTime) :
    xScale startTime endTime width t = width / 2
    ∧ ∀ m ∈ (_renderTimeline allEvents jobs clientWidth startTime endTime
        typeColorMap eventPairs).markers, m.x = (clientWidth - 120 - 50) / 2 := by
  subst h
  constructor
  · simp [xScale]
  · intro m hm
    simp only [_renderTimeline, List.mem_map] at hm
    obtain ⟨e, _, rfl⟩ := hm
    simp [xScale]

/-- Witness for C4 at a concrete single-event degenerate render. -/
theorem C4_degenerate_viewport_witness :
    xScale 0 0 800 0 = 400
    ∧ ∀ m ∈ (_renderTimeline [exE1] exJobs 970 0 0 exColorMap []).markers,
        m.x = (970 - 120 - 50) / 2 := by
  have h := C4_degenerate_viewport [exE1] exJobs exColorMap 970 [] 0 0 800 0 rfl
  exact ⟨by rw [h.1]; norm_num, h.2⟩

/-- C5: zooming to any sub-range `[a, b]` of the full bounds and then
clicking reset restores the full viewport, hides the reset control, and the
re-rendered scene equals the original full-bounds scene (the render is a
pure function of the viewport). -/
theorem C5_zoom_reset_roundtrip (allEvents : List Event)
    (jobs typeColorMap : List (String × String)) (clientWidth : ℚ)
    (eventPairs : List EventPair) (st : ViewState) (a b : ℚ)
    (hza : st.currentStartTime = a) (hzb : st.currentEndTime = b)
    (h1 : st.fullStartTime ≤ a) (h2 : a < b) (h3 : b ≤ st.fullEndTime) :
    renderCurrentView allEvents jobs clientWidth typeColorMap eventPairs
        (resetClick st)
      = renderCurrentView allEvents jobs clientWidth typeColorMap eventPairs
          { fullStartTime := st.fullStartTime, fullEndTime := st.fullEndTime,
            currentStartTime := st.fullStartTime,
            currentEndTime := st.fullEndTime, resetVisible := false }
    ∧ (resetClick st).currentStartTime = st.fullStartTime
    ∧ (resetClick st).currentEndTime = st.fullEndTime
    ∧ (resetClick st).resetVisible = false := by
  refine ⟨?_, rfl, rfl, rfl⟩
  simp [renderCurrentView, resetClick]

/-- Witness for C5 at a concrete zoomed state over the fixture events. -/
theorem C5_zoom_reset_roundtrip_witness :
    (resetClick exZoomState).currentStartTime = exZoomState.fullStartTime :=
  (C5_zoom_reset_roundtrip exEvents exJobs exColorMap 800 [] exZoomState
    20 80 rfl rfl (by norm_num [exZoomState]) (by norm_num)
    (by norm_num [exZoomState])).2.1

/-- C7: the lane assignment depends only on the full, unfiltered event list —
the lifelines (labels, order and y coordinates) of two renders over
different viewports are identical, and equal the sorted full participant
set with `yScale` applied. -/
theorem C7_lanes_viewport_independent (allEvents : List Event)
    (jobs typeColorMap : List (String × String)) (clientWidth : ℚ)
    (eventPairs : List EventPair) (s1 e1 s2 e2 : ℚ) :
    (_renderTimeline allEvents jobs clientWidth s1 e1 typeColorMap
        eventPairs).lifelines
      = (_renderTimeline allEvents jobs clientWidth s2 e2 typeColorMap
        eventPairs).lifelines
    ∧ (_renderTimeline allEvents jobs clientWidth s1 e1 typeColorMap
        eventPairs).lifelines
      = (participantsOf jobs allEvents).map (fun p =>
          { participant := p, y := yScale (participantsOf jobs allEvents) p }) :=
  ⟨rfl, rfl⟩

/-- C2: hovering a marker whose event carries a pairing key `K` fades
exactly those markers whose event's key differs from `K` (markers with no
key included), makes exactly the arrows tagged `K` visible, raises exactly
the rectangles tagged `K` to the emphasized opacity 0.4 (the others keep
the default 0.15), and shows the synchronization legend; the subsequent
mouseout unfades all markers, hides all arrows, restores every rectangle
to the default dimmed opacity 0.15, and hides the legend. -/
theorem C2_hover_trace (s : Scene) (legendShown : Bool) (ev : Event)
    (K : String) (hK : jsOr ev.mutex ev.barrier = some K) (hKne : K ≠ "")
    (hm : ∀ m ∈ s.markers, m.faded = false)
    (ha : ∀ a ∈ s.arrows, a.visible = false)
    (hr : ∀ r ∈ s.rects, r.opacity = 15 / 100) :
    (∀ m ∈ (mouseoverMarker true s legendShown ev).1.markers,
        (m.faded = true ↔ jsOr m.event.mutex m.event.barrier ≠ some K))
    ∧ (∀ a ∈ (mouseoverMarker true s legendShown ev).1.arrows,
        (a.visible = true ↔ a.pairName = K))
    ∧ (∀ r ∈ (mouseoverMarker true s legendShown ev).1.rects,
        r.opacity = if r.pairName = K then 4 / 10 else 15 / 100)
    ∧ (mouseoverMarker true s legendShown ev).2 = true
    ∧ (∀ m ∈ (mouseoutMarker true (mouseoverMarker true s legendShown ev).1
          (mouseoverMarker true s legendShown ev).2).1.markers,
        m.faded = false)
    ∧ (∀ a ∈ (mouseoutMarker true (mouseoverMarker true s legendShown ev).1
          (mouseoverMarker true s legendShown ev).2).1.arrows,
        a.visible = false)
    ∧ (∀ r ∈ (mouseoutMarker true (mouseoverMarker true s legendShown ev).1
          (mouseoverMarker true s legendShown ev).2).1.rects,
        r.opacity = 15 / 100)
    ∧ (mouseoutMarker true (mouseoverMarker true s legendShown ev).1
        (mouseoverMarker true s legendShown ev).2).2 = false := by
  have hke : K.isEmpty = false := by
    by_cases h : K.isEmpty
    · exact absurd ((String.isEmpty_iff K).mp h) hKne
    · simpa using h
  have hs : mouseoverMarker true s legendShown ev =
      ({ s with
          markers := s.markers.map (fun m =>
            if jsOr m.event.mutex m.event.barrier ≠ some K then
              { m with faded := true }
            else m),
          arrows := s.arrows.map (fun a =>
            if a.pairName = K then { a with visible := true } else a),
          rects := s.rects.map (fun r =>
            if r.pairName = K then { r with opacity := 4 / 10 } else r) },
        true) := by
    simp [mouseoverMarker, hK, jsTruthy, hke, jsString]
  rw [hs]
  refine ⟨?_, ?_, ?_, rfl, ?_, ?_, ?_, rfl⟩
  · intro m hmem
    obtain ⟨m0, h0, rfl⟩ := List.mem_map.mp hmem
    by_cases hkey : jsOr m0.event.mutex m0.event.barrier ≠ some K
    · simp [hkey]
    · simp [hkey, hm m0 h0]
  · intro a hmem
    obtain ⟨a0, h0, rfl⟩ := List.mem_map.mp hmem
    by_cases hkey : a0.pairName = K
    · simp [hkey]
    · simp [hkey, ha a0 h0]
  · intro r hmem
    obtain ⟨r0, h0, rfl⟩ := List.mem_map.mp hmem
    by_cases hkey : r0.pairName = K
    · simp [hkey]
    · simp [hkey, hr r0 h0]
  · intro m hmem
    obtain ⟨m0, h0, rfl⟩ := List.mem_map.mp hmem
    rfl
  · intro a hmem
    obtain ⟨a0, h0, rfl⟩ := List.mem_map.mp hmem
    rfl
  · intro r hmem
    obtain ⟨r0, h0, rfl⟩ := List.mem_map.mp hmem
    rfl

/-- Witness for C2: hovering the marker of `exE1` (key `m1`) over the small
fixture scene shows the synchronization legend. -/
theorem C2_hover_trace_witness :
    (mouseoverMarker true hvScene false exE1).2 = true :=
  (C2_hover_trace hvScene false exE1 "m1" rfl (by decide)
    (by simp [hvScene, hvM1, hvM2]) (by simp [hvScene, hvA1])
    (by simp [hvScene, hvR1])).2.2.2.1

/-- C3 counterexample: a `mutex_lock_unlock` pair whose two endpoints belong
to the same participant — two distinct job ids sharing one short name —
still produces two rectangles, because the second rectangle is keyed on
`job_id` inequality rather than participant inequality. -/
theorem C3_same_participant_two_rects :
    getShortName cexJobs cexPair.start_event.job_id
      = getShortName cexJobs cexPair.end_event.job_id
    ∧ cexPair.pair_type = "mutex_lock_unlock"
    ∧ (_renderTimeline exEvents cexJobs 970 0 100 exColorMap
        [cexPair]).rects.length = 2 := by
  decide

/-- The primitives a `mutex_lock_unlock` pair contributes, by case on the
endpoint job ids (helper shared by several results below). -/
theorem renderPair_mutex_lock_unlock (jobs : List (String × String))
    (participants : List String) (typeColorMap : List (String × String))
    (startTime endTime width : ℚ) (pair : EventPair)
    (hty : pair.pair_type = "mutex_lock_unlock") :
    (pair.start_event.job_id ≠ pair.end_event.job_id →
      (renderPair jobs participants typeColorMap startTime endTime width
          pair).1
        = [{ x := xScale startTime endTime width pair.start_event.timestamp,
             y := yScale participants
               (getShortName jobs pair.start_event.job_id) - 10,
             width := xScale startTime endTime width pair.end_event.timestamp
               - xScale startTime endTime width pair.start_event.timestamp,
             height := 20, pairName := jsString pair.mutex },
           { x := xScale startTime endTime width pair.start_event.timestamp,
             y := yScale participants
               (getShortName jobs pair.end_event.job_id) - 10,
             width := xScale startTime endTime width pair.end_event.timestamp
               - xScale startTime endTime width pair.start_event.timestamp,
             height := 20, pairName := jsString pair.mutex }])
    ∧ (pair.start_event.job_id = pair.end_event.job_id →
      (renderPair jobs participants typeColorMap startTime endTime width
          pair).1
        = [{ x := xScale startTime endTime width pair.start_event.timestamp,
             y := yScale participants
               (getShortName jobs pair.start_event.job_id) - 10,
             width := xScale startTime endTime width pair.end_event.timestamp
               - xScale startTime endTime width pair.start_event.timestamp,
             height := 20, pairName := jsString pair.mutex }])
    ∧ (renderPair jobs participants typeColorMap startTime endTime width
        pair).2.1 = []
    ∧ (renderPair jobs participants typeColorMap startTime endTime width
        pair).2.2 = false := by
  refine ⟨?_, ?_, ?_, ?_⟩
  · intro hne2
    simp [renderPair, jsIsNaN, hty, hne2]
  · intro heq
    simp [renderPair, jsIsNaN, hty, heq]
  · by_cases h : pair.start_event.job_id = pair.end_event.job_id
    · simp [renderPair, jsIsNaN, hty, h]
    · simp [renderPair, jsIsNaN, hty, h]
  · by_cases h : pair.start_event.job_id = pair.end_event.job_id
    · simp [renderPair, jsIsNaN, hty, h]
    · simp [renderPair, jsIsNaN, hty, h]

/-- C3 (amended): the two-rectangle branch is keyed on `job_id`: a
`mutex_lock_unlock` pair with distinct endpoint job ids produces exactly two
rectangles — both tagged with the pair's mutex name, both with the identical
x-span `[timeToX(start), timeToX(end)]`, one centered on each endpoint's
lane — and a pair with equal job ids produces exactly one such rectangle;
no arrow and no warning come from a lock/unlock pair. -/
theorem C3_lock_unlock_rects (jobs : List (String × String))
    (participants : List String) (typeColorMap : List (String × String))
    (startTime endTime width : ℚ) (pair : EventPair)
    (hty : pair.pair_type = "mutex_lock_unlock") :
    (pair.start_event.job_id ≠ pair.end_event.job_id →
      (renderPair jobs participants typeColorMap startTime endTime width
          pair).1
        = [{ x := xScale startTime endTime width pair.start_event.timestamp,
             y := yScale participants
               (getShortName jobs pair.start_event.job_id) - 10,
             width := xScale startTime endTime width pair.end_event.timestamp
               - xScale startTime endTime width pair.start_event.timestamp,
             height := 20, pairName := jsString pair.mutex },
           { x := xScale startTime endTime width pair.start_event.timestamp,
             y := yScale participants
               (getShortName jobs pair.end_event.job_id) - 10,
             width := xScale startTime endTime width pair.end_event.timestamp
               - xScale startTime endTime width pair.start_event.timestamp,
             height := 20, pairName := jsString pair.mutex }])
    ∧ (pair.start_event.job_id = pair.end_event.job_id →
      (renderPair jobs participants typeColorMap startTime endTime width
          pair).1
        = [{ x := xScale startTime endTime width pair.start_event.timestamp,
             y := yScale participants
               (getShortName jobs pair.start_event.job_id) - 10,
             width := xScale startTime endTime width pair.end_event.timestamp
               - xScale startTime endTime width pair.start_event.timestamp,
             height := 20, pairName := jsString pair.mutex }])
    ∧ (renderPair jobs participants typeColorMap startTime endTime width
        pair).2.1 = []
    ∧ (renderPair jobs participants typeColorMap startTime endTime width
        pair).2.2 = false :=
  renderPair_mutex_lock_unlock jobs participants typeColorMap startTime
    endTime width pair hty

/-- Witness for C3 (amended) at the concrete cross-job fixture pair. -/
theorem C3_lock_unlock_rects_witness :
    (renderPair cexJobs (participantsOf cexJobs exEvents) exColorMap 0 100 630
        cexPair).1.length = 2 := by
  have h := (C3_lock_unlock_rects cexJobs (participantsOf cexJobs exEvents)
    exColorMap 0 100 630 cexPair rfl).1 (by decide)
  rw [h]
  rfl

/-- C6: a drag release with pixel delta `< 10` leaves the viewport
unchanged, triggers no re-render and leaves the reset control hidden; a
release with delta `≥ 10` commits a viewport obtained through the inverse
of the time scale — the committed bounds map back (under the previous
viewport's scale) to the clamped pixel endpoints — staying inside the
previous viewport, triggers a re-render and reveals the reset control. -/
theorem C6_drag_threshold (st : ViewState)
    (startX endX marginLeft svgWidth : ℚ)
    (hreset : st.resetVisible = false)
    (hcw : 0 < svgWidth - marginLeft - 50)
    (hord : st.currentStartTime < st.currentEndTime) :
    (|endX - startX| < 10 →
      onMouseUp st startX endX marginLeft svgWidth = (st, false)
      ∧ (onMouseUp st startX endX marginLeft svgWidth).1.resetVisible = false)
    ∧ (10 ≤ |endX - startX| →
      (onMouseUp st startX endX marginLeft svgWidth).2 = true
      ∧ (onMouseUp st startX endX marginLeft svgWidth).1.resetVisible = true
      ∧ xScale st.currentStartTime st.currentEndTime
          (svgWidth - marginLeft - 50)
          (onMouseUp st startX endX marginLeft svgWidth).1.currentStartTime
        = max 0 (min startX endX - marginLeft)
      ∧ xScale st.currentStartTime st.currentEndTime
          (svgWidth - marginLeft - 50)
          (onMouseUp st startX endX marginLeft svgWidth).1.currentEndTime
        = min (svgWidth - marginLeft - 50) (max startX endX - marginLeft)
      ∧ st.currentStartTime
          ≤ (onMouseUp st startX endX marginLeft svgWidth).1.currentStartTime
      ∧ (onMouseUp st startX endX marginLeft svgWidth).1.currentEndTime
          ≤ st.currentEndTime) := by
  have hcw0 : svgWidth - marginLeft - 50 ≠ 0 := ne_of_gt hcw
  have htd : st.currentEndTime - st.currentStartTime ≠ 0 :=
    sub_ne_zero.mpr hord.ne'
  constructor
  · intro hsmall
    have heq : onMouseUp st startX endX marginLeft svgWidth = (st, false) := by
      simp [onMouseUp, hsmall]
    exact ⟨heq, by rw [heq]; exact hreset⟩
  · intro hbig
    have hnot : ¬ |endX - startX| < 10 := not_lt.mpr hbig
    simp only [onMouseUp, if_neg hnot]
    refine ⟨by trivial, by trivial, ?_, ?_, ?_, ?_⟩
    · rw [xScale, if_neg htd]
      field_simp
      ring
    · rw [xScale, if_neg htd]
      field_simp
      ring
    · have hsp : (0 : ℚ) ≤ max 0 (min startX endX - marginLeft) :=
        le_max_left 0 _
      have hnn : (0 : ℚ) ≤ max 0 (min startX endX - marginLeft)
          / (svgWidth - marginLeft - 50)
          * (st.currentEndTime - st.currentStartTime) :=
        mul_nonneg (div_nonneg hsp hcw.le) (sub_nonneg.mpr hord.le)
      linarith
    · have hep : min (svgWidth - marginLeft - 50) (max startX endX - marginLeft)
          ≤ svgWidth - marginLeft - 50 := min_le_left _ _
      have h1 : min (svgWidth - marginLeft - 50) (max startX endX - marginLeft)
          / (svgWidth - marginLeft - 50) ≤ 1 := (div_le_one hcw).mpr hep
      have h2 : min (svgWidth - marginLeft - 50) (max startX endX - marginLeft)
          / (svgWidth - marginLeft - 50)
          * (st.currentEndTime - st.currentStartTime)
          ≤ 1 * (st.currentEndTime - st.currentStartTime) :=
        mul_le_mul_of_nonneg_right h1 (sub_nonneg.mpr hord.le)
      simp only [one_mul] at h2
      linarith

/-- Witness for C6: the spec's concrete scenario — a drag from pixel 10 to
pixel 15 (delta 5 < 10) leaves the viewport state untouched and triggers no
re-render. -/
theorem C6_drag_threshold_witness :
    onMouseUp exDragState 10 15 120 970 = (exDragState, false) :=
  ((C6_drag_threshold exDragState 10 15 120 970 rfl (by norm_num)
    (by norm_num [exDragState])).1 (by norm_num)).1

/-- C8 (evidence of the code's behavior at the failing input): for a pair
whose start endpoint's participant has no lane in the rendered lifeline set,
the render does NOT skip the pair and records no warning — the `isNaN`
guard of line 305 never fires, because `yScale` returns the finite number
`(-1) * 40 + 20 = -20` for a missing participant — instead the pair's first
rectangle is drawn at y = `-30`, above every lane. -/
theorem C8_missing_lane_drawn_not_skipped :
    yScale (participantsOf exJobs [exE1]) (getShortName exJobs c8Ghost.job_id)
      = -20
    ∧ yScale (participantsOf exJobs [exE1]) (getShortName exJobs exE1.job_id)
      = 20
    ∧ (_renderTimeline [exE1] exJobs 970 0 100 exColorMap [c8Pair]).warnings
      = []
    ∧ (_renderTimeline [exE1] exJobs 970 0 100 exColorMap
        [c8Pair]).rects.length = 2
    ∧ (renderPair exJobs (participantsOf exJobs [exE1]) exColorMap 0 100 800
        c8Pair).1.map (fun r => r.y)
      = [yScale (participantsOf exJobs [exE1])
            (getShortName exJobs c8Ghost.job_id) - 10,
         yScale (participantsOf exJobs [exE1])
            (getShortName exJobs exE1.job_id) - 10] := by
  have hghost : jsIndexOf (participantsOf exJobs [exE1])
      (getShortName exJobs c8Ghost.job_id) = -1 := by decide
  have hw1 : jsIndexOf (participantsOf exJobs [exE1])
      (getShortName exJobs exE1.job_id) = 0 := by decide
  refine ⟨?_, ?_, rfl, by decide, ?_⟩
  · rw [yScale, hghost]
    norm_num
  · rw [yScale, hw1]
    norm_num
  · have h := (renderPair_mutex_lock_unlock exJobs
      (participantsOf exJobs [exE1]) exColorMap 0 100 800 c8Pair rfl).1
      (by decide)
    rw [h]
    rfl

/-- C9 counterexample: with the container element absent, initialization
throws a `TypeError` instead of behaving as a no-op (and the reset-click
handler attached before the throw leaks); moreover two successive
successful initializations leave two mousedown handlers attached to the
container — handler attachment is not idempotent. -/
theorem C9_init_not_defensive :
    (initializeTimeline exEvents exJobs exColorMap [] exHostNoContainer).isOk
      = false
    ∧ (hostAfter (initializeTimeline exEvents exJobs exColorMap []
        exHostNoContainer)).resetHandlers = 1
    ∧ (initializeTimeline exEvents exJobs exColorMap [] exHostFull).isOk
      = true
    ∧ (hostAfter (initializeTimeline exEvents exJobs exColorMap []
        (hostAfter (initializeTimeline exEvents exJobs exColorMap []
          exHostFull)))).mousedownHandlers = 2 := by
  refine ⟨rfl, rfl, rfl, rfl⟩

/-- C9 (amended): initialization is neither defensive nor idempotent: when
the container, reset control and primary legend elements are all present it
succeeds and attaches one further mousedown handler and one further
reset-click handler on top of any already attached (handlers from prior
initializations are not removed); when the container element is absent it
throws — with the fresh reset-click handler already attached and leaked. -/
theorem C9_init_behavior (allEvents : List Event)
    (jobs typeColorMap : List (String × String)) (eventPairs : List EventPair)
    (host : Host) (hne : allEvents ≠ []) (hrb : host.resetButton = true) :
    (host.container = true → host.timelineLegend = true →
      (initializeTimeline allEvents jobs typeColorMap eventPairs host).isOk
        = true
      ∧ (hostAfter (initializeTimeline allEvents jobs typeColorMap eventPairs
          host)).mousedownHandlers = host.mousedownHandlers + 1
      ∧ (hostAfter (initializeTimeline allEvents jobs typeColorMap eventPairs
          host)).resetHandlers = host.resetHandlers + 1)
    ∧ (host.container = false →
      (initializeTimeline allEvents jobs typeColorMap eventPairs host).isOk
        = false
      ∧ (hostAfter (initializeTimeline allEvents jobs typeColorMap eventPairs
          host)).resetHandlers = host.resetHandlers + 1) := by
  obtain ⟨e0, rest, rfl⟩ : ∃ e0 rest, allEvents = e0 :: rest := by
    cases allEvents with
    | nil => exact absurd rfl hne
    | cons e0 rest => exact ⟨e0, rest, rfl⟩
  constructor
  · intro hc hl
    refine ⟨?_, ?_, ?_⟩ <;>
      simp [initializeTimeline, hrb, hc, hl, hostAfter, InitResult.isOk]
  · intro hc
    refine ⟨?_, ?_⟩ <;>
      simp [initializeTimeline, hrb, hc, hostAfter, InitResult.isOk]

/-- Witness for C9 (amended): a fully-populated host initializes
successfully. -/
theorem C9_init_behavior_witness :
    (initializeTimeline exEvents exJobs exColorMap [] exHostFull).isOk
      = true :=
  ((C9_init_behavior exEvents exJobs exColorMap [] exHostFull
    (by simp [exEvents]) rfl).1 rfl rfl).1

/-- C10: `initializeTimeline` is defined only for non-empty event lists: on
the empty list it throws while reading `allEvents[0].timestamp` — before any
handler is attached or anything rendered, so the host comes back unchanged
and no scene exists — and on a non-empty list it sets the full viewport
bounds to the first and the last events' timestamps. -/
theorem C10_init_bounds (allEvents : List Event)
    (jobs typeColorMap : List (String × String)) (eventPairs : List EventPair)
    (host : Host) (hc : host.container = true) (hrb : host.resetButton = true)
    (hl : host.timelineLegend = true) :
    (allEvents = [] →
      initializeTimeline allEvents jobs typeColorMap eventPairs host
        = .errored "TypeError: allEvents[0] is undefined" host)
    ∧ ∀ e0 rest, allEvents = e0 :: rest →
      initializeTimeline allEvents jobs typeColorMap eventPairs host
        = .ok { host with
                resetHandlers := host.resetHandlers + 1,
                mousedownHandlers := host.mousedownHandlers + 1 }
            e0.timestamp (((e0 :: rest).getLastD e0).timestamp)
            (_renderTimeline (e0 :: rest) jobs host.containerWidth
              e0.timestamp (((e0 :: rest).getLastD e0).timestamp)
              typeColorMap eventPairs) := by
  constructor
  · rintro rfl
    rfl
  · rintro e0 rest rfl
    simp [initializeTimeline, hc, hrb, hl]

/-- Witness for C10: the empty event list throws with the host unchanged. -/
theorem C10_init_bounds_witness :
    initializeTimeline ([] : List Event) exJobs exColorMap [] exHostFull
      = .errored "TypeError: allEvents[0] is undefined" exHostFull :=
  (C10_init_bounds [] exJobs exColorMap [] exHostFull rfl rfl rfl).1 rfl

end TimelineViz
